import Mathlib

/-!
Shallow embedding of `walkTreeWithFlightRouterState`
(the flight-data tree walk of the app renderer) and of the small pieces of
shared state handling around it, together with theorems checking the
specified properties of that walk.

External collaborators (segment matching, dynamic-param resolution, router
state projection, asset discovery, the component renderer) are consumed as
opaque function fields of a context record, exactly as the source consumes
them as imports; nothing about their behaviour is assumed beyond their
types.
-/

set_option linter.unusedVariables false

/-- A route segment: either a plain string or a dynamic-param triple
`[param, value, type]`, mirroring the source `Segment` type
(`string | [string, string, DynamicParamTypes]`). -/
inductive Segment where
  | str (s : String)
  | dyn (param value kind : String)
deriving DecidableEq, Repr

/-- JavaScript truthiness of a segment value (`!!segment`): an empty string
is falsy, every other segment value (non-empty string or array) is truthy. -/
def Segment.truthy : Segment → Bool
  | .str s => s != ""
  | .dyn _ _ _ => true

/-- The well-known marker for a synthesized default parallel-route segment
(`DEFAULT_SEGMENT_KEY` from the shared segment module). -/
def DEFAULT_SEGMENT_KEY : String := "__DEFAULT__"

/-- A dynamic route parameter value: `string | string[]`. -/
inductive ParamValue where
  | str (s : String)
  | list (l : List String)
deriving DecidableEq, Repr

/-- The params bag threaded through the walk:
`{ [key: string]: string | string[] }`, modelled as an ordered key-value
list (JavaScript objects preserve insertion order). -/
abbrev ParamsBag := List (String × ParamValue)

/-- Result of `getDynamicParamFromSegment`: `{param, value, treeSegment}`,
where `value` may be `null` (optional dynamic segments). -/
structure DynamicParam where
  param : String
  value : Option ParamValue
  treeSegment : Segment
deriving DecidableEq, Repr

/-- The client router state (`FlightRouterState`): recursive tuple
`[segment, parallelRoutes, url?, refetchMarker?, isRootLayout?]`.  Only the
segment (index 0), the parallel-routes map (index 1) and the refetch marker
(index 3) are read by the walk, so only those are carried here. -/
inductive FlightRouterState where
  | mk (segment : Segment) (parallelRoutes : List (String × FlightRouterState))
      (refetch : Option String)

/-- `flightRouterState[0]`. -/
def FlightRouterState.segment : FlightRouterState → Segment
  | .mk s _ _ => s

/-- `flightRouterState[1]`. -/
def FlightRouterState.parallelRoutes :
    FlightRouterState → List (String × FlightRouterState)
  | .mk _ c _ => c

/-- `flightRouterState[3]`. -/
def FlightRouterState.refetch : FlightRouterState → Option String
  | .mk _ _ r => r

/-- The component modules of a loader-tree node that the walk reads: the
layout module (with its module path, `layout?.[1]`, used for asset lookup)
and the presence of a loading module (`Boolean(modules.loading)`). -/
structure Modules where
  layout : Option String
  loading : Bool
deriving DecidableEq, Repr

/-- The server loader tree: `[segment, parallelRoutes, modules]`, with the
parallel routes an ordered key-to-child map. -/
inductive LoaderTree where
  | node (segment : Segment) (parallelRoutes : List (String × LoaderTree))
      (modules : Modules)

/-- The node's segment. -/
def LoaderTree.segment : LoaderTree → Segment
  | .node s _ _ => s

/-- The node's parallel-route children. -/
def LoaderTree.parallelRoutes : LoaderTree → List (String × LoaderTree)
  | .node _ c _ => c

/-- The node's modules. -/
def LoaderTree.modules : LoaderTree → Modules
  | .node _ _ m => m

/-- JavaScript object property access `obj[key]`, `none` when the key is
absent. -/
def lookupKey {α : Type} (k : String) : List (String × α) → Option α
  | [] => none
  | (k', v) :: rest => if k' = k then some v else lookupKey k rest

/-- The request context and the external pure collaborators the walk
consumes (`ctx` plus the module-level imports of the source file). -/
structure Ctx where
  /-- `ctx.renderOpts.experimental.isRoutePPREnabled`. -/
  isRoutePPREnabled : Bool
  /-- `ctx.isPrefetch`. -/
  isPrefetch : Bool
  /-- `ctx.parsedRequestHeaders.isRouteTreePrefetchRequest`. -/
  isRouteTreePrefetchRequest : Bool
  /-- `ctx.query`. -/
  query : List (String × String)
  /-- `matchSegment` from the shared match-segments module. -/
  matchSegment : Segment → Segment → Bool
  /-- `canSegmentBeOverridden` from the shared match-segments module. -/
  canSegmentBeOverridden : Segment → Segment → Bool
  /-- `ctx.getDynamicParamFromSegment`. -/
  getDynamicParamFromSegment : Segment → Option DynamicParam
  /-- `addSearchParamsIfPageSegment` from the shared segment module. -/
  addSearchParamsIfPageSegment : Segment → List (String × String) → Segment
  /-- `createFlightRouterStateFromLoaderTree` (its resolver and query
  arguments are the fixed `ctx.getDynamicParamFromSegment` and `ctx.query`,
  so it is consumed as a function of the tree slice alone). -/
  createFlightRouterStateFromLoaderTree : LoaderTree → FlightRouterState
  /-- `hasLoadingComponentInTree`, the external loading-boundary
  predicate, applied by the walk to the current tree slice. -/
  hasLoadingComponentInTree : LoaderTree → Bool
  /-- `getLinkAndScriptTags(clientReferenceManifest, layoutPath, css, js,
  true)` appends manifest-determined entries into the provided CSS and JS
  sets; it is modelled by the pair of sets of entries it appends for a
  given layout module path. -/
  getLinkAndScriptTags : String → Finset String × Finset String
  /-- `getPreloadableFonts(nextFontManifest, layoutPath, fonts)` likewise,
  modelled by the set of entries it appends for a given layout path. -/
  getPreloadableFonts : String → Finset String

/-- JavaScript object spread with a computed key,
`{...parentParams, [param]: value}`: existing keys keep their position,
the assigned key is overwritten in place or appended at the end. -/
def setParam (bag : ParamsBag) (p : String) (v : ParamValue) : ParamsBag :=
  if bag.any (fun kv => kv.1 == p) then
    bag.map (fun kv => if kv.1 == p then (p, v) else kv)
  else bag ++ [(p, v)]

/-- `currentParams` (source lines 81-89): if the dynamic-param resolver
returns a binding whose value is not `null`, extend `parentParams` with
that single binding; otherwise keep `parentParams` unchanged. -/
def currentParams (ctx : Ctx) (segment : Segment) (parentParams : ParamsBag) :
    ParamsBag :=
  match ctx.getDynamicParamFromSegment segment with
  | some segmentParam =>
    match segmentParam.value with
    | some v => setParam parentParams segmentParam.param v
    | none => parentParams
  | none => parentParams

/-- `actualSegment` (source lines 90-93): the resolved tree segment (or the
raw segment when no dynamic param resolves), with the request's search
params merged in when it is a page segment. -/
def actualSegment (ctx : Ctx) (segment : Segment) : Segment :=
  ctx.addSearchParamsIfPageSegment
    (match ctx.getDynamicParamFromSegment segment with
     | some segmentParam => segmentParam.treeSegment
     | none => segment)
    ctx.query

/-- `renderComponentsOnThisLevel` (source lines 98-106): render at this
level when there is no further router state, or the router-state segment
does not match the actual segment, or this is the last item in the tree
(no parallel-route children), or an explicit refetch is requested. -/
def renderComponentsOnThisLevel (ctx : Ctx) (actualSeg : Segment)
    (parallelRoutesKeys : List String)
    (flightRouterState : Option FlightRouterState) : Bool :=
  match flightRouterState with
  | none => true
  | some s =>
    !ctx.matchSegment actualSeg s.segment
      || parallelRoutesKeys.isEmpty
      || s.refetch == some "refetch"

/-- `shouldSkipComponentTree` (source lines 112-120): with PPR disabled,
skip rendering for a route-tree request, or for a prefetch when neither
this node nor the tree below it has a loading module. -/
def shouldSkipComponentTree (ctx : Ctx) (loaderTreeToFilter : LoaderTree) :
    Bool :=
  !ctx.isRoutePPREnabled &&
    (ctx.isRouteTreePrefetchRequest ||
      (ctx.isPrefetch &&
        !loaderTreeToFilter.modules.loading &&
        !ctx.hasLoadingComponentInTree loaderTreeToFilter))

/-- `overriddenSegment` (source lines 123-127): keep the router state's own
segment when it is a legitimate richer representation of the actual
segment, otherwise use the actual segment. -/
def overriddenSegment (ctx : Ctx) (actualSeg : Segment)
    (flightRouterState : Option FlightRouterState) : Segment :=
  match flightRouterState with
  | some s => if ctx.canSegmentBeOverridden actualSeg s.segment then s.segment
              else actualSeg
  | none => actualSeg

/-- `rootLayoutAtThisLevel` (source line 73). -/
def rootLayoutAtThisLevel (modules : Modules) (rootLayoutIncluded : Bool) :
    Bool :=
  modules.layout.isSome && !rootLayoutIncluded

/-- `rootLayoutIncludedAtThisLevelOrAbove` (source lines 77-78), also the
value the walk hands to every recursive call as the child's
`rootLayoutIncluded`. -/
def rootLayoutIncludedAtThisLevelOrAbove (modules : Modules)
    (rootLayoutIncluded : Bool) : Bool :=
  rootLayoutIncluded || rootLayoutAtThisLevel modules rootLayoutIncluded

/-- The contents of the per-level asset-set copies (source lines 185-204):
fresh copies of the three incoming sets, extended with the entries the
asset collectors append for this level's layout module when one is
present. -/
def assetsWithCurrentLayout (ctx : Ctx) (modules : Modules)
    (injectedCSS injectedJS injectedFontPreloadTags : Finset String) :
    Finset String × Finset String × Finset String :=
  match modules.layout with
  | some layoutPath =>
    let (cssAdd, jsAdd) := ctx.getLinkAndScriptTags layoutPath
    (injectedCSS ∪ cssAdd, injectedJS ∪ jsAdd,
      injectedFontPreloadTags ∪ ctx.getPreloadableFonts layoutPath)
  | none => (injectedCSS, injectedJS, injectedFontPreloadTags)

/-- One emitted `FlightDataSegment`:
`[segment, routerState, seedData, head, isRootLayout]`.  `seedData` and
`head` are `none` exactly where the source puts `null`. -/
structure FlightDataSegment (σ η : Type) where
  segment : Segment
  routerState : FlightRouterState
  seedData : Option σ
  head : Option η
  isRootLayout : Bool

/-- A `FlightDataPath`: the flattened array
`[segment, parallelRouteKey, ..., FlightDataSegment]`, modelled as the list
of `(segment, parallelRouteKey)` pairs followed by the data segment. -/
structure FlightDataPath (σ η : Type) where
  segmentPath : List (Segment × String)
  dataSegment : FlightDataSegment σ η

/-- `subPath[0]`: the first element of the flattened path array — the first
path segment when the segment path is non-empty, otherwise the emitted
segment of the data segment itself. -/
def FlightDataPath.firstSegment {σ η : Type} (p : FlightDataPath σ η) :
    Segment :=
  match p.segmentPath with
  | (s, _) :: _ => s
  | [] => p.dataSegment.segment

/-- `[actualSegment, parallelRouteKey, ...subPath]`. -/
def FlightDataPath.prepend {σ η : Type} (actualSeg : Segment) (key : String)
    (p : FlightDataPath σ η) : FlightDataPath σ η :=
  ⟨(actualSeg, key) :: p.segmentPath, p.dataSegment⟩

/-- What a call of the walk can fail with: an error thrown by the external
component renderer, propagated uncaught, or the `TypeError` raised by
reading index 0 of an `undefined` router-state child in the default-route
suppression check (source line 234). -/
inductive WalkError (ε : Type) where
  | renderer (e : ε)
  | undefinedIndex
deriving DecidableEq, Repr

/-- The arguments the walk passes to `createComponentTree`
(source lines 153-168), besides the shared context. -/
structure RenderArgs where
  loaderTree : LoaderTree
  parentParams : ParamsBag
  injectedCSS : Finset String
  injectedJS : Finset String
  injectedFontPreloadTags : Finset String
  rootLayoutIncluded : Bool

/-- The `continue` test of the suppression loop for one sub-path (source
lines 231-238): `true` means keep the sub-path, `false` means drop it; the
undefined-index failure is the `TypeError` of reading index 0 of the
missing router-state child. -/
def subPathKeep {σ η ε : Type} (flightRouterState : Option FlightRouterState)
    (parallelRouteKey : String) (subPath : FlightDataPath σ η) :
    Except (WalkError ε) Bool :=
  if subPath.firstSegment = Segment.str DEFAULT_SEGMENT_KEY then
    match flightRouterState with
    | none => .ok true
    | some s =>
      match lookupKey parallelRouteKey s.parallelRoutes with
      | none => .error WalkError.undefinedIndex
      | some childState =>
        .ok (!(childState.segment.truthy &&
          childState.refetch != some "refetch"))
  else .ok true

/-- The default-route suppression loop over one child's sub-paths (source
lines 228-241): a sub-path whose first element is the default segment
marker is dropped when a router-state slice exists and its child for this
parallel-route key has a truthy segment and no refetch marker; reading
that child when the key is absent raises a `TypeError`
(`WalkError.undefinedIndex`); every kept sub-path is prepended with
`(actualSegment, parallelRouteKey)`. -/
def processSubPaths {σ η ε : Type} (flightRouterState : Option FlightRouterState)
    (parallelRouteKey : String) (actualSeg : Segment) :
    List (FlightDataPath σ η) → Except (WalkError ε) (List (FlightDataPath σ η))
  | [] => .ok []
  | subPath :: rest =>
    match subPathKeep flightRouterState parallelRouteKey subPath with
    | .error err => .error err
    | .ok keep =>
      match processSubPaths flightRouterState parallelRouteKey actualSeg
          rest with
      | .error err => .error err
      | .ok restPaths =>
        .ok (if keep then
          FlightDataPath.prepend actualSeg parallelRouteKey subPath ::
            restPaths
        else restPaths)

mutual

/-- `walkTreeWithFlightRouterState` (source lines 28-245).  The external
renderer `createComponentTree` is passed explicitly; `σ` is its opaque
seed-data type, `η` the opaque type of the shared head node, `ε` the type
of errors the renderer throws. -/
def walkTreeWithFlightRouterState {σ η ε : Type} (ctx : Ctx)
    (createComponentTree : RenderArgs → Except ε σ)
    (loaderTreeToFilter : LoaderTree) (parentParams : ParamsBag)
    (flightRouterState : Option FlightRouterState) (parentRendered : Bool)
    (rscPayloadHead : η)
    (injectedCSS injectedJS injectedFontPreloadTags : Finset String)
    (rootLayoutIncluded : Bool) :
    Except (WalkError ε) (List (FlightDataPath σ η)) :=
  match loaderTreeToFilter with
  | .node segment parallelRoutes modules =>
    let rootLayoutIncludedHere :=
      rootLayoutIncludedAtThisLevelOrAbove modules rootLayoutIncluded
    let params := currentParams ctx segment parentParams
    let actualSeg := actualSegment ctx segment
    let renderHere := renderComponentsOnThisLevel ctx actualSeg
      (parallelRoutes.map Prod.fst) flightRouterState
    if !parentRendered && renderHere then
      let overridden := overriddenSegment ctx actualSeg flightRouterState
      let routerState := ctx.createFlightRouterStateFromLoaderTree
        (.node segment parallelRoutes modules)
      if shouldSkipComponentTree ctx (.node segment parallelRoutes modules) then
        .ok [⟨[], ⟨overridden, routerState, none, none, false⟩⟩]
      else
        match createComponentTree
            ⟨.node segment parallelRoutes modules, params, injectedCSS,
              injectedJS, injectedFontPreloadTags, rootLayoutIncluded⟩ with
        | .error e => .error (.renderer e)
        | .ok seedData =>
          .ok [⟨[], ⟨overridden, routerState, some seedData,
            some rscPayloadHead, false⟩⟩]
    else
      let sets := assetsWithCurrentLayout ctx modules injectedCSS injectedJS
        injectedFontPreloadTags
      walkChildren ctx createComponentTree actualSeg params flightRouterState
        (parentRendered || renderHere) rscPayloadHead sets.1 sets.2.1 sets.2.2
        rootLayoutIncludedHere parallelRoutes
termination_by sizeOf loaderTreeToFilter
decreasing_by simp_wf; omega

/-- The `for (const parallelRouteKey of parallelRoutesKeys)` loop of the
walk (source lines 209-242): recurse into each parallel-route child in
order, apply default-route suppression to its sub-paths, and concatenate
the kept, prepended sub-paths of all children. -/
def walkChildren {σ η ε : Type} (ctx : Ctx)
    (createComponentTree : RenderArgs → Except ε σ) (actualSeg : Segment)
    (params : ParamsBag) (flightRouterState : Option FlightRouterState)
    (childParentRendered : Bool) (rscPayloadHead : η)
    (cssW jsW fontsW : Finset String) (rootLayoutIncludedHere : Bool) :
    List (String × LoaderTree) →
      Except (WalkError ε) (List (FlightDataPath σ η))
  | [] => .ok []
  | (parallelRouteKey, parallelRoute) :: rest =>
    match walkTreeWithFlightRouterState ctx createComponentTree
        parallelRoute params
        (flightRouterState.bind
          (fun s => lookupKey parallelRouteKey s.parallelRoutes))
        childParentRendered rscPayloadHead cssW jsW fontsW
        rootLayoutIncludedHere with
    | .error err => .error err
    | .ok subPaths =>
      match processSubPaths flightRouterState parallelRouteKey actualSeg
          subPaths with
      | .error err => .error err
      | .ok kept =>
        match walkChildren ctx createComponentTree actualSeg params
            flightRouterState childParentRendered rscPayloadHead cssW jsW
            fontsW rootLayoutIncludedHere rest with
        | .error err => .error err
        | .ok restPaths => .ok (kept ++ restPaths)
termination_by l => sizeOf l
decreasing_by all_goals simp_wf <;> omega

end

/-! ### Definitions taken from the specification's wording

These restate decision formulas in the spec's words, to be compared with
the definitions translated from the source. -/

/-- The render-here decision as the spec words it: the router-state slice
is absent, OR its own segment does not match the actual segment under the
matching relation, OR this level has zero parallel-route children, OR its
refetch marker equals `'refetch'`. -/
def renderHereSpec (ctx : Ctx) (actualSeg : Segment)
    (parallelRoutesKeys : List String)
    (flightRouterState : Option FlightRouterState) : Bool :=
  flightRouterState.isNone
    || (match flightRouterState with
        | some s => !ctx.matchSegment actualSeg s.segment
        | none => false)
    || decide (parallelRoutesKeys.length = 0)
    || (match flightRouterState with
        | some s => s.refetch == some "refetch"
        | none => false)

/-- The prefetch short-circuit as the spec words it: PPR disabled AND
(route-tree-only request OR (prefetch request AND no loading module at the
current node AND no loading module anywhere in the subtree)). -/
def skipComponentTreeSpec (ctx : Ctx) (t : LoaderTree) : Bool :=
  !ctx.isRoutePPREnabled &&
    (ctx.isRouteTreePrefetchRequest ||
      (ctx.isPrefetch && !t.modules.loading &&
        !ctx.hasLoadingComponentInTree t))

/-- The default-route suppression condition as the claim words it: the
sub-path's first element equals the default segment marker AND a
router-state slice exists AND that router state's child for the same
parallel-route key has a truthy (non-empty) own segment AND that child's
refetch marker is not `'refetch'`. -/
def dropSubPath {σ η : Type} (flightRouterState : Option FlightRouterState)
    (parallelRouteKey : String) (sp : FlightDataPath σ η) : Bool :=
  (sp.firstSegment == Segment.str DEFAULT_SEGMENT_KEY) &&
    (match flightRouterState with
     | some s =>
       (match lookupKey parallelRouteKey s.parallelRoutes with
        | some childState =>
          childState.segment.truthy && childState.refetch != some "refetch"
        | none => false)
     | none => false)

/-! ### Auxiliary notions for the invariant claims -/

/-- Whether the params bag has a binding for a key. -/
def containsKey (bag : ParamsBag) (k : String) : Bool :=
  bag.any (fun kv => kv.1 == k)

/-- The `rootLayoutIncluded` value arriving at the node reached by a list
of parallel-route keys, following exactly the value the walk hands to each
recursive call (`rootLayoutIncludedAtThisLevelOrAbove`); `none` when the
path leaves the tree. -/
def flagAlongPath : LoaderTree → Bool → List String → Option Bool
  | _, b, [] => some b
  | .node _ children modules, b, k :: ks =>
    match lookupKey k children with
    | some child =>
      flagAlongPath child (rootLayoutIncludedAtThisLevelOrAbove modules b) ks
    | none => none

mutual

/-- Shape compatibility of a router-state slice with a loader-tree slice:
wherever the state is present, it has a child entry for every
parallel-route key of the loader-tree node, recursively.  (An absent slice
is compatible with anything.) -/
def routerStateCompatible : Option FlightRouterState → LoaderTree → Bool
  | none, _ => true
  | some s, .node _ children _ => routerStateCompatibleChildren s children
termination_by s t => sizeOf t

/-- Helper of `routerStateCompatible` ranging over the children list. -/
def routerStateCompatibleChildren :
    FlightRouterState → List (String × LoaderTree) → Bool
  | _, [] => true
  | s, (k, child) :: rest =>
    (match lookupKey k s.parallelRoutes with
     | some cs => routerStateCompatible (some cs) child
     | none => false) &&
      routerStateCompatibleChildren s rest
termination_by s l => sizeOf l

end

/-! ### A model of set-instance identity for the per-level asset copies

JavaScript `Set` values are compared and passed by reference; to state
anything about "distinct set instances" the allocation of `new Set(x)` is
made explicit: an instance is an identity tag plus contents, and each
level allocates three fresh instances. -/

/-- A JavaScript `Set` instance: reference identity plus contents. -/
structure SetInstance where
  id : Nat
  contents : Finset String
deriving DecidableEq

/-- Source lines 185-204 with allocation made explicit: the level makes
one fresh copy of each of the three incoming sets (`new Set(x)` allocates;
ids `fresh`, `fresh + 1`, `fresh + 2`) and, when a layout module is
present, the asset collectors append that layout's entries into the
copies. -/
def childAssetInstances (ctx : Ctx) (modules : Modules)
    (css js fonts : SetInstance) (fresh : Nat) :
    SetInstance × SetInstance × SetInstance :=
  let sets := assetsWithCurrentLayout ctx modules css.contents js.contents
    fonts.contents
  (⟨fresh, sets.1⟩, ⟨fresh + 1, sets.2.1⟩, ⟨fresh + 2, sets.2.2⟩)

/-- Source lines 209-226: every iteration of the parallel-route loop
passes the same three variables (`injectedCSSWithCurrentLayout` and
friends) to the recursive call, so the instances a sibling branch receives
do not depend on the parallel-route key. -/
def assetInstancesForSibling (ctx : Ctx) (modules : Modules)
    (css js fonts : SetInstance) (fresh : Nat) (parallelRouteKey : String) :
    SetInstance × SetInstance × SetInstance :=
  childAssetInstances ctx modules css js fonts fresh

/-! ### Concrete collaborator instantiations used by witnesses and
counterexamples -/

/-- A concrete context: structural segment matching, no overriding, no
dynamic params, identity search-param merging, a simple router-state
projection, no loading boundaries, empty asset manifests. -/
def ctxW : Ctx where
  isRoutePPREnabled := true
  isPrefetch := false
  isRouteTreePrefetchRequest := false
  query := []
  matchSegment := fun a b => a == b
  canSegmentBeOverridden := fun _ _ => false
  getDynamicParamFromSegment := fun _ => none
  addSearchParamsIfPageSegment := fun s _ => s
  createFlightRouterStateFromLoaderTree := fun t => .mk t.segment [] none
  hasLoadingComponentInTree := fun _ => false
  getLinkAndScriptTags := fun _ => (∅, ∅)
  getPreloadableFonts := fun _ => ∅

/-- A one-node loader tree with a plain string segment. -/
def leafTree (s : String) : LoaderTree := .node (.str s) [] ⟨none, false⟩

/-! ### Claims -/

/-- **C1**: the render-here decision of the walk equals the spec's formula
(absent state, or segment mismatch, or zero parallel-route children, or
the refetch marker); in particular a node with zero parallel-route
children always renders, and a refetch marker forces rendering even when
the segment matches. -/
theorem renderHere_characterization :
    (∀ (ctx : Ctx) (actualSeg : Segment) (parallelRoutesKeys : List String)
        (flightRouterState : Option FlightRouterState),
      renderComponentsOnThisLevel ctx actualSeg parallelRoutesKeys
          flightRouterState =
        renderHereSpec ctx actualSeg parallelRoutesKeys flightRouterState) ∧
    (∀ (ctx : Ctx) (actualSeg : Segment)
        (flightRouterState : Option FlightRouterState),
      renderComponentsOnThisLevel ctx actualSeg [] flightRouterState =
        true) ∧
    (∀ (ctx : Ctx) (actualSeg : Segment) (parallelRoutesKeys : List String)
        (s : FlightRouterState), s.refetch = some "refetch" →
      renderComponentsOnThisLevel ctx actualSeg parallelRoutesKeys (some s) =
        true) := by
  refine ⟨?_, ?_, ?_⟩
  · intro ctx a keys frs
    cases frs with
    | none => simp [renderComponentsOnThisLevel, renderHereSpec]
    | some s =>
      cases keys <;>
        simp [renderComponentsOnThisLevel, renderHereSpec]
  · intro ctx a frs
    cases frs <;> simp [renderComponentsOnThisLevel]
  · intro ctx a keys s h
    simp [renderComponentsOnThisLevel, h]

/-- Witness for C1 at concrete inputs: a matching segment with the refetch
marker set still renders. -/
theorem renderHere_characterization_witness :
    renderComponentsOnThisLevel ctxW (Segment.str "a") ["children"]
      (some (.mk (Segment.str "a") [] (some "refetch"))) = true :=
  renderHere_characterization.2.2 ctxW (Segment.str "a") ["children"]
    (.mk (Segment.str "a") [] (some "refetch")) rfl

/-- **C2**: the prefetch short-circuit of the walk equals the spec's
formula, and when it holds together with the render-here decision (with
`parentRendered` false) the walk emits exactly one `FlightDataSegment`
`(overriddenSegment, projected router state, null, null, false)` as a
single-element path list, for every renderer (so without invoking the
renderer) and without recursing. -/
theorem skip_short_circuit_emission :
    (∀ (ctx : Ctx) (t : LoaderTree),
      shouldSkipComponentTree ctx t = skipComponentTreeSpec ctx t) ∧
    (∀ (σ η ε : Type) (ctx : Ctx) (render : RenderArgs → Except ε σ)
        (t : LoaderTree) (params : ParamsBag)
        (frs : Option FlightRouterState) (head : η)
        (css js fonts : Finset String) (rl : Bool),
      renderComponentsOnThisLevel ctx (actualSegment ctx t.segment)
          (t.parallelRoutes.map Prod.fst) frs = true →
      shouldSkipComponentTree ctx t = true →
      walkTreeWithFlightRouterState ctx render t params frs false head css
          js fonts rl =
        .ok [⟨[], ⟨overriddenSegment ctx (actualSegment ctx t.segment) frs,
          ctx.createFlightRouterStateFromLoaderTree t, none, none,
          false⟩⟩]) := by
  constructor
  · intro ctx t; rfl
  · intro σ η ε ctx render t params frs head css js fonts rl hr hs
    cases t with
    | node seg children mods =>
      simp only [LoaderTree.segment, LoaderTree.parallelRoutes] at hr hs
      simp [walkTreeWithFlightRouterState, LoaderTree.segment, hr, hs]

/-- The concrete context of `ctxW` with PPR disabled and the route-tree
prefetch flag set. -/
def ctxSkip : Ctx :=
  { ctxW with isRoutePPREnabled := false, isRouteTreePrefetchRequest := true }

/-- Witness for C2: a route-tree request with PPR disabled at a leaf node
emits the single router-state-only segment. -/
theorem skip_short_circuit_emission_witness :
    walkTreeWithFlightRouterState ctxSkip
        (fun _ => (.error "boom" : Except String Nat)) (leafTree "a") [] none
        false "head" ∅ ∅ ∅ false =
      .ok [⟨[], ⟨Segment.str "a", .mk (Segment.str "a") [] none, none, none,
        false⟩⟩] :=
  skip_short_circuit_emission.2 Nat String String ctxSkip
    (fun _ => .error "boom") (leafTree "a") [] none "head" ∅ ∅ ∅ false
    (by simp [renderComponentsOnThisLevel]) (by rfl)

/-- **C6**: with the router-state slice absent and `parentRendered` false,
when the prefetch short-circuit is off, the walk returns exactly one path
holding a single `FlightDataSegment` whose segment is `actualSegment`,
whose seed data is the renderer's result for the whole slice, and whose
head is the shared head node — the whole tree is rendered from the root. -/
theorem absent_state_full_render {σ η ε : Type} (ctx : Ctx)
    (render : RenderArgs → Except ε σ) (t : LoaderTree) (params : ParamsBag)
    (head : η) (css js fonts : Finset String) (rl : Bool) (sd : σ)
    (hskip : shouldSkipComponentTree ctx t = false)
    (hrender : render ⟨t, currentParams ctx t.segment params, css, js, fonts,
      rl⟩ = .ok sd) :
    walkTreeWithFlightRouterState ctx render t params none false head css js
        fonts rl =
      .ok [⟨[], ⟨actualSegment ctx t.segment,
        ctx.createFlightRouterStateFromLoaderTree t, some sd, some head,
        false⟩⟩] := by
  cases t with
  | node seg children mods =>
    simp only [LoaderTree.segment] at hrender
    simp [walkTreeWithFlightRouterState, renderComponentsOnThisLevel,
      LoaderTree.segment, hskip, hrender, overriddenSegment]

/-- Witness for C6 on a concrete two-level tree with a renderer returning
seed data `7`. -/
theorem absent_state_full_render_witness :
    walkTreeWithFlightRouterState ctxW
        (fun _ => (.ok 7 : Except String Nat))
        (.node (.str "root") [("children", leafTree "a")] ⟨some "L", false⟩)
        [] none false "head" ∅ ∅ ∅ false =
      .ok [⟨[], ⟨Segment.str "root", .mk (Segment.str "root") [] none, some 7,
        some "head", false⟩⟩] :=
  absent_state_full_render ctxW (fun _ => .ok 7)
    (.node (.str "root") [("children", leafTree "a")] ⟨some "L", false⟩)
    [] "head" ∅ ∅ ∅ false 7 (by rfl) (by rfl)

mutual

/-- With `parentRendered` true the walk of any subtree yields no paths. -/
theorem walk_rendered_aux {σ η ε : Type} (ctx : Ctx)
    (render : RenderArgs → Except ε σ) (t : LoaderTree) (params : ParamsBag)
    (frs : Option FlightRouterState) (head : η) (css js fonts : Finset String)
    (rl : Bool) :
    walkTreeWithFlightRouterState ctx render t params frs true head css js
      fonts rl = .ok [] := by
  cases t with
  | node seg children mods =>
    rw [walkTreeWithFlightRouterState]
    simp only [Bool.not_true, Bool.false_and, if_neg, Bool.false_eq_true,
      not_false_eq_true]
    exact walkChildren_rendered_aux ctx render _ _ frs head _ _ _ _ children
termination_by sizeOf t
decreasing_by simp_wf; omega

/-- With `childParentRendered` true the children loop yields no paths. -/
theorem walkChildren_rendered_aux {σ η ε : Type} (ctx : Ctx)
    (render : RenderArgs → Except ε σ) (aseg : Segment) (params : ParamsBag)
    (frs : Option FlightRouterState) (head : η) (css js fonts : Finset String)
    (rl : Bool) (l : List (String × LoaderTree)) :
    walkChildren ctx render aseg params frs true head css js fonts rl l =
      .ok [] := by
  match l with
  | [] => rw [walkChildren]
  | (k, c) :: rest =>
    rw [walkChildren,
      walk_rendered_aux ctx render c params _ head css js fonts rl,
      walkChildren_rendered_aux ctx render aseg params frs head css js fonts
        rl rest]
    rfl
termination_by sizeOf l
decreasing_by all_goals simp_wf <;> omega

end

/-- **C10**: a call of the walk with `parentRendered` true returns the
empty path list for every loader tree, every (possibly absent) router
state and every renderer — no `FlightDataSegment` is emitted in that
subtree and the result never depends on the renderer. -/
theorem parentRendered_returns_no_paths {σ η ε : Type} (ctx : Ctx)
    (render : RenderArgs → Except ε σ) (t : LoaderTree) (params : ParamsBag)
    (frs : Option FlightRouterState) (head : η) (css js fonts : Finset String)
    (rl : Bool) :
    walkTreeWithFlightRouterState ctx render t params frs true head css js
      fonts rl = .ok [] :=
  walk_rendered_aux ctx render t params frs head css js fonts rl

/-- Whenever every default-marker sub-path has a present router-state
child for the key (or the router state is absent), the suppression loop
succeeds and equals: filter out the sub-paths satisfying the drop
condition, prepend `(actualSegment, parallelRouteKey)` to the rest. -/
theorem processSubPaths_eq_filter {σ η ε : Type}
    (frs : Option FlightRouterState) (key : String) (aseg : Segment)
    (subPaths : List (FlightDataPath σ η))
    (h : ∀ sp ∈ subPaths,
      sp.firstSegment = Segment.str DEFAULT_SEGMENT_KEY →
      frs = none ∨ ∃ s c, frs = some s ∧
        lookupKey key s.parallelRoutes = some c) :
    processSubPaths (ε := ε) frs key aseg subPaths =
      .ok ((subPaths.filter fun sp => !dropSubPath frs key sp).map
        (FlightDataPath.prepend aseg key)) := by
  induction subPaths with
  | nil => rfl
  | cons sp rest ih =>
    have hrest := ih (fun q hq => h q (List.mem_cons_of_mem _ hq))
    by_cases hd : sp.firstSegment = Segment.str DEFAULT_SEGMENT_KEY
    · rcases h sp (List.mem_cons_self sp rest) hd with hnone | ⟨s, c, hfrs, hlk⟩
      · subst hnone
        simp [processSubPaths, subPathKeep, hd, hrest, dropSubPath]
      · subst hfrs
        simp [processSubPaths, subPathKeep, hd, hlk, hrest, dropSubPath]
        by_cases ht : c.segment.truthy <;>
          by_cases hr : c.refetch = some "refetch" <;>
            simp [List.filter_cons, hd, ht, hr]
    · simp [processSubPaths, subPathKeep, hd, hrest, dropSubPath]

/-- **C3**: during the non-rendering descent, a sub-path returned from a
parallel-route child is dropped exactly when its first element is the
default segment marker, a router-state slice exists, the router state's
child for the key has a truthy own segment, and that child's refetch
marker is not `'refetch'`; every kept sub-path is prepended with
`(actualSegment, parallelRouteKey)`.  (The hypothesis rules out the
router-state shapes on which the check itself hard-fails; those are the
subject of the safety claim.) -/
theorem default_route_suppression {σ η ε : Type}
    (frs : Option FlightRouterState) (key : String) (aseg : Segment)
    (subPaths : List (FlightDataPath σ η))
    (h : ∀ sp ∈ subPaths,
      sp.firstSegment = Segment.str DEFAULT_SEGMENT_KEY →
      frs = none ∨ ∃ s c, frs = some s ∧
        lookupKey key s.parallelRoutes = some c) :
    processSubPaths (ε := ε) frs key aseg subPaths =
      .ok ((subPaths.filter fun sp => !dropSubPath frs key sp).map
        (FlightDataPath.prepend aseg key)) :=
  processSubPaths_eq_filter frs key aseg subPaths h

/-- A sub-path consisting of one bare data segment with the given
emitted segment. -/
def bareSubPath (s : Segment) : FlightDataPath Nat String :=
  ⟨[], ⟨s, .mk (.str "rs") [] none, none, none, false⟩⟩

/-- Witness for C3: with a router state whose child for `"x"` has a
non-default truthy segment and no refetch marker, the default-marker
sub-path is dropped and the other sub-path is kept, prepended with the
actual segment and the key. -/
theorem default_route_suppression_witness :
    processSubPaths (ε := String)
        (some (.mk (.str "root") [("x", .mk (.str "a") [] none)] none)) "x"
        (.str "seg")
        [bareSubPath (.str DEFAULT_SEGMENT_KEY), bareSubPath (.str "b")] =
      .ok [⟨[(.str "seg", "x")], (bareSubPath (.str "b")).dataSegment⟩] :=
  (default_route_suppression
    (some (.mk (.str "root") [("x", .mk (.str "a") [] none)] none)) "x"
    (.str "seg")
    [bareSubPath (.str DEFAULT_SEGMENT_KEY), bareSubPath (.str "b")]
    (fun sp _ _ => Or.inr ⟨_, _, rfl, rfl⟩)).trans (by rfl)

/-- Once the incoming flag is `true`, it stays `true` along any path. -/
theorem flagAlongPath_true_aux (p : List String) : ∀ (t : LoaderTree)
    (f : Bool), flagAlongPath t true p = some f → f = true := by
  induction p with
  | nil =>
    intro t f h
    simp only [flagAlongPath, Option.some.injEq] at h
    exact h.symm
  | cons k ks ih =>
    intro t f h
    cases t with
    | node s children m =>
      simp only [flagAlongPath] at h
      cases hl : lookupKey k children with
      | none => rw [hl] at h; simp at h
      | some child =>
        rw [hl] at h
        have hb : rootLayoutIncludedAtThisLevelOrAbove m true = true := by
          simp [rootLayoutIncludedAtThisLevelOrAbove]
        rw [hb] at h
        exact ih child f h

/-- **C7**: `rootLayoutIncluded` is monotone non-decreasing down the walk:
the value handed to every recursive call
(`rootLayoutIncludedAtThisLevelOrAbove`) is `true` whenever the incoming
value is, and along any root-to-leaf path, once the flag is `true` at a
prefix it is `true` at every extension. -/
theorem rootLayoutIncluded_monotone :
    (∀ (modules : Modules) (b : Bool), b = true →
      rootLayoutIncludedAtThisLevelOrAbove modules b = true) ∧
    (∀ (p : List String) (t : LoaderTree) (b : Bool) (q : List String)
        (f : Bool), flagAlongPath t b p = some true →
      flagAlongPath t b (p ++ q) = some f → f = true) := by
  constructor
  · intro m b hb
    subst hb
    simp [rootLayoutIncludedAtThisLevelOrAbove]
  · intro p
    induction p with
    | nil =>
      intro t b q f h1 h2
      simp only [flagAlongPath, Option.some.injEq] at h1
      subst h1
      exact flagAlongPath_true_aux q t f (by simpa using h2)
    | cons k ks ih =>
      intro t b q f h1 h2
      cases t with
      | node s children m =>
        simp only [List.cons_append, flagAlongPath] at h1 h2
        cases hl : lookupKey k children with
        | none => rw [hl] at h1; simp at h1
        | some child =>
          rw [hl] at h1 h2
          exact ih child _ q f h1 h2

/-- A three-level tree whose root has a layout module and whose deeper
levels do not. -/
def treeFlag : LoaderTree :=
  .node (.str "r")
    [("children", .node (.str "m") [("children", leafTree "x")]
      ⟨none, false⟩)]
    ⟨some "L", false⟩

/-- Witness for C7: the per-level step keeps a `true` flag `true`, and on
a concrete tree whose root is the root layout, the flag observed one and
two levels below the root is `true`. -/
theorem rootLayoutIncluded_monotone_witness :
    rootLayoutIncludedAtThisLevelOrAbove (⟨some "L", false⟩ : Modules) true =
        true ∧
      (true : Bool) = true :=
  ⟨rootLayoutIncluded_monotone.1 ⟨some "L", false⟩ true rfl,
    rootLayoutIncluded_monotone.2 ["children"] treeFlag false ["children"]
      true (by rfl) (by rfl)⟩

/-- **C4, counterexample**: the claim that distinct parallel siblings
receive structurally distinct set instances fails — the loop passes the
very same instances (the single per-level copies) for two distinct
sibling keys. -/
theorem sibling_instances_shared_counterexample :
    ("a" : String) ≠ "b" ∧
      assetInstancesForSibling ctxW ⟨some "L", false⟩ ⟨0, ∅⟩ ⟨1, ∅⟩ ⟨2, ∅⟩ 3
          "a" =
        assetInstancesForSibling ctxW ⟨some "L", false⟩ ⟨0, ∅⟩ ⟨1, ∅⟩ ⟨2, ∅⟩ 3
          "b" :=
  ⟨by decide, rfl⟩

/-- **C4, amended**: at every non-rendering descent level, the asset-set
contents passed to the children are supersets of the contents the level
received (exactly the received contents united with the layout's assets
when a layout module is present); the level allocates fresh copies whose
identities differ from every instance it received and from one another —
but every parallel sibling receives the same single copies, independent of
the parallel-route key. -/
theorem asset_sets_supersets_shared_instance :
    (∀ (ctx : Ctx) (modules : Modules) (css js fonts : SetInstance)
        (fresh : Nat) (key : String),
      css.contents ⊆
          (assetInstancesForSibling ctx modules css js fonts fresh
            key).1.contents ∧
        js.contents ⊆
          (assetInstancesForSibling ctx modules css js fonts fresh
            key).2.1.contents ∧
        fonts.contents ⊆
          (assetInstancesForSibling ctx modules css js fonts fresh
            key).2.2.contents) ∧
    (∀ (ctx : Ctx) (modules : Modules) (css js fonts : SetInstance)
        (fresh : Nat) (key layoutPath : String),
      modules.layout = some layoutPath →
      (assetInstancesForSibling ctx modules css js fonts fresh
          key).1.contents =
          css.contents ∪ (ctx.getLinkAndScriptTags layoutPath).1 ∧
        (assetInstancesForSibling ctx modules css js fonts fresh
          key).2.1.contents =
          js.contents ∪ (ctx.getLinkAndScriptTags layoutPath).2 ∧
        (assetInstancesForSibling ctx modules css js fonts fresh
          key).2.2.contents =
          fonts.contents ∪ ctx.getPreloadableFonts layoutPath) ∧
    (∀ (ctx : Ctx) (modules : Modules) (css js fonts : SetInstance)
        (fresh : Nat) (k k' : String),
      assetInstancesForSibling ctx modules css js fonts fresh k =
        assetInstancesForSibling ctx modules css js fonts fresh k') ∧
    (∀ (ctx : Ctx) (modules : Modules) (css js fonts : SetInstance)
        (fresh : Nat) (key : String),
      css.id < fresh → js.id < fresh → fonts.id < fresh →
      ∀ inst, inst = assetInstancesForSibling ctx modules css js fonts fresh
          key →
        (inst.1.id ≠ css.id ∧ inst.1.id ≠ js.id ∧ inst.1.id ≠ fonts.id) ∧
          (inst.2.1.id ≠ css.id ∧ inst.2.1.id ≠ js.id ∧
            inst.2.1.id ≠ fonts.id) ∧
          (inst.2.2.id ≠ css.id ∧ inst.2.2.id ≠ js.id ∧
            inst.2.2.id ≠ fonts.id) ∧
          (inst.1.id ≠ inst.2.1.id ∧ inst.1.id ≠ inst.2.2.id ∧
            inst.2.1.id ≠ inst.2.2.id)) := by
  refine ⟨?_, ?_, ?_, ?_⟩
  · intro ctx modules css js fonts fresh key
    refine ⟨?_, ?_, ?_⟩ <;>
      · simp only [assetInstancesForSibling, childAssetInstances,
          assetsWithCurrentLayout]
        cases modules.layout <;> simp
  · intro ctx modules css js fonts fresh key layoutPath hl
    simp [assetInstancesForSibling, childAssetInstances,
      assetsWithCurrentLayout, hl]
  · intro ctx modules css js fonts fresh k k'
    rfl
  · intro ctx modules css js fonts fresh key h1 h2 h3 inst hinst
    subst hinst
    simp only [assetInstancesForSibling, childAssetInstances]
    refine ⟨⟨?_, ?_, ?_⟩, ⟨?_, ?_, ?_⟩, ⟨?_, ?_, ?_⟩, ?_, ?_, ?_⟩ <;> omega

/-- Witness for C4's amended theorem at a concrete level with a layout
module and fresh id 3. -/
theorem asset_sets_supersets_shared_instance_witness :
    ({"x"} : Finset String) ⊆
        (assetInstancesForSibling ctxW ⟨some "L", false⟩ ⟨0, {"x"}⟩ ⟨1, ∅⟩
          ⟨2, ∅⟩ 3 "a").1.contents ∧
      (assetInstancesForSibling ctxW ⟨some "L", false⟩ ⟨0, {"x"}⟩ ⟨1, ∅⟩
          ⟨2, ∅⟩ 3 "a").1.id ≠ 0 :=
  ⟨(asset_sets_supersets_shared_instance.1 ctxW ⟨some "L", false⟩ ⟨0, {"x"}⟩
      ⟨1, ∅⟩ ⟨2, ∅⟩ 3 "a").1,
    ((asset_sets_supersets_shared_instance.2.2.2 ctxW ⟨some "L", false⟩
      ⟨0, {"x"}⟩ ⟨1, ∅⟩ ⟨2, ∅⟩ 3 "a" (by decide) (by decide) (by decide) _
      rfl).1).1⟩

/-- When the router-state slice is absent, or its children include the
parallel-route key, the suppression loop cannot raise the undefined-index
failure. -/
theorem processSubPaths_ok_exists {σ η ε : Type}
    (frs : Option FlightRouterState) (key : String) (aseg : Segment)
    (subPaths : List (FlightDataPath σ η))
    (h : frs = none ∨ ∃ s c, frs = some s ∧
      lookupKey key s.parallelRoutes = some c) :
    ∃ l, processSubPaths (ε := ε) frs key aseg subPaths = .ok l :=
  ⟨_, processSubPaths_eq_filter frs key aseg subPaths (fun _ _ _ => h)⟩

mutual

/-- On a shape-compatible router state the walk never raises the
undefined-index failure, whatever the renderer does. -/
theorem walk_compat_no_crash {σ η ε : Type} (ctx : Ctx)
    (render : RenderArgs → Except ε σ) (t : LoaderTree) (params : ParamsBag)
    (frs : Option FlightRouterState) (pr : Bool) (head : η)
    (css js fonts : Finset String) (rl : Bool)
    (hc : routerStateCompatible frs t = true) :
    walkTreeWithFlightRouterState ctx render t params frs pr head css js
      fonts rl ≠ .error WalkError.undefinedIndex := by
  match t with
  | .node seg children mods =>
    simp only [walkTreeWithFlightRouterState]
    by_cases hb : (!pr && renderComponentsOnThisLevel ctx
        (actualSegment ctx seg) (children.map Prod.fst) frs) = true
    · rw [if_pos hb]
      by_cases hs :
        shouldSkipComponentTree ctx (.node seg children mods) = true
      · rw [if_pos hs]
        simp
      · rw [if_neg hs]
        cases hrr : render (RenderArgs.mk (.node seg children mods)
            (currentParams ctx seg params) css js fonts rl) <;> simp
    · rw [if_neg hb]
      cases frs with
      | none =>
        exact walkChildren_compat_no_crash ctx render (actualSegment ctx seg)
          (currentParams ctx seg params) none _ head _ _ _ _ children trivial
      | some s =>
        rw [routerStateCompatible] at hc
        exact walkChildren_compat_no_crash ctx render (actualSegment ctx seg)
          (currentParams ctx seg params) (some s) _ head _ _ _ _ children hc
termination_by sizeOf t
decreasing_by all_goals (simp_wf; omega)

/-- Children-loop form of `walk_compat_no_crash`. -/
theorem walkChildren_compat_no_crash {σ η ε : Type} (ctx : Ctx)
    (render : RenderArgs → Except ε σ) (aseg : Segment) (params : ParamsBag)
    (frs : Option FlightRouterState) (cpr : Bool) (head : η)
    (cssW jsW fontsW : Finset String) (rlh : Bool)
    (l : List (String × LoaderTree))
    (hc : match frs with
      | none => True
      | some s => routerStateCompatibleChildren s l = true) :
    walkChildren ctx render aseg params frs cpr head cssW jsW fontsW rlh l ≠
      .error WalkError.undefinedIndex := by
  match l with
  | [] => simp [walkChildren]
  | (k, c) :: rest =>
    intro hcontra
    rw [walkChildren] at hcontra
    cases frs with
    | none =>
      have hchild := walk_compat_no_crash ctx render c params none cpr head
        cssW jsW fontsW rlh (by rw [routerStateCompatible])
      have hrest := walkChildren_compat_no_crash ctx render aseg params
        none cpr head cssW jsW fontsW rlh rest trivial
      simp only [Option.none_bind] at hcontra
      cases hw : walkTreeWithFlightRouterState ctx render c params none cpr
          head cssW jsW fontsW rlh with
      | error err =>
        rw [hw] at hcontra
        simp only [Except.error.injEq] at hcontra
        exact hchild (by rw [hw, hcontra])
      | ok subPaths =>
        rw [hw] at hcontra
        obtain ⟨lp, hps⟩ := processSubPaths_ok_exists (σ := σ) (η := η)
          (ε := ε) none k aseg subPaths (Or.inl rfl)
        simp only [hps] at hcontra
        cases hr : walkChildren ctx render aseg params none cpr head cssW jsW
            fontsW rlh rest with
        | error err =>
          rw [hr] at hcontra
          simp only [Except.error.injEq] at hcontra
          exact hrest (by rw [hr, hcontra])
        | ok restPaths =>
          rw [hr] at hcontra
          simp at hcontra
    | some s =>
      simp only [routerStateCompatibleChildren, Bool.and_eq_true] at hc
      obtain ⟨hhead, hrestc⟩ := hc
      have hrest := walkChildren_compat_no_crash ctx render aseg params
        (some s) cpr head cssW jsW fontsW rlh rest hrestc
      cases hlk : lookupKey k s.parallelRoutes with
      | none => rw [hlk] at hhead; simp at hhead
      | some cs =>
        rw [hlk] at hhead
        have hchild := walk_compat_no_crash ctx render c params (some cs) cpr
          head cssW jsW fontsW rlh hhead
        simp only [Option.some_bind, hlk] at hcontra
        cases hw : walkTreeWithFlightRouterState ctx render c params (some cs)
            cpr head cssW jsW fontsW rlh with
        | error err =>
          rw [hw] at hcontra
          simp only [Except.error.injEq] at hcontra
          exact hchild (by rw [hw, hcontra])
        | ok subPaths =>
          rw [hw] at hcontra
          obtain ⟨lp, hps⟩ := processSubPaths_ok_exists (σ := σ) (η := η)
            (ε := ε) (some s) k aseg subPaths (Or.inr ⟨s, cs, rfl, hlk⟩)
          simp only [hps] at hcontra
          cases hr : walkChildren ctx render aseg params (some s) cpr head
              cssW jsW fontsW rlh rest with
          | error err =>
            rw [hr] at hcontra
            simp only [Except.error.injEq] at hcontra
            exact hrest (by rw [hr, hcontra])
          | ok restPaths =>
            rw [hr] at hcontra
            simp at hcontra
termination_by sizeOf l
decreasing_by all_goals simp_wf <;> omega

end

/-- The concrete loader tree of the crash input: a parallel slot whose
child carries the default segment marker. -/
def treeCrash : LoaderTree :=
  .node (.str "root")
    [("slot", .node (.str DEFAULT_SEGMENT_KEY) [] ⟨none, false⟩)]
    ⟨none, false⟩

/-- The concrete client router state of the crash input: it matches the
root segment but has no child entry for the `"slot"` parallel-route key. -/
def frsCrash : FlightRouterState := .mk (.str "root") [] none

/-- **C5, counterexample**: the walk is not total on every client-submitted
router state — on a router state lacking the child entry for a
parallel-route key whose loader-tree child is a default slot, the
default-route suppression check dereferences the missing entry and the
walk fails with the undefined-index error instead of returning a result. -/
theorem missing_key_crash_counterexample :
    walkTreeWithFlightRouterState ctxSkip
        (fun _ => (.ok 0 : Except String Nat)) treeCrash [] (some frsCrash)
        false "head" ∅ ∅ ∅ false =
      .error WalkError.undefinedIndex := by
  simp [walkTreeWithFlightRouterState, walkChildren, processSubPaths,
    subPathKeep, renderComponentsOnThisLevel, shouldSkipComponentTree,
    actualSegment, currentParams, overriddenSegment, assetsWithCurrentLayout,
    ctxSkip, ctxW, treeCrash, frsCrash, lookupKey,
    FlightDataPath.firstSegment, DEFAULT_SEGMENT_KEY,
    FlightRouterState.segment, FlightRouterState.refetch,
    FlightRouterState.parallelRoutes, LoaderTree.segment, LoaderTree.modules]

/-- **C5, amended**: the recursion-site indexing miss is indeed treated as
an absent router state (an absent slice forces the render-here decision in
the child), but the walk is total only up to the suppression check: on any
router state that is shape-compatible with the loader tree (every present
slice has a child entry for each parallel-route key), no operation of the
walk raises the undefined-index failure, whatever the renderer does. -/
theorem walk_total_on_compatible_state :
    (∀ (ctx : Ctx) (actualSeg : Segment) (keys : List String),
      renderComponentsOnThisLevel ctx actualSeg keys none = true) ∧
    (∀ (σ η ε : Type) (ctx : Ctx) (render : RenderArgs → Except ε σ)
        (t : LoaderTree) (params : ParamsBag)
        (frs : Option FlightRouterState) (pr : Bool) (head : η)
        (css js fonts : Finset String) (rl : Bool),
      routerStateCompatible frs t = true →
      walkTreeWithFlightRouterState ctx render t params frs pr head css js
        fonts rl ≠ .error WalkError.undefinedIndex) :=
  ⟨fun ctx aseg keys => rfl,
    fun σ η ε ctx render t params frs pr head css js fonts rl hc =>
      walk_compat_no_crash ctx render t params frs pr head css js fonts rl hc⟩

/-- Witness for C5's amended theorem: on the crash tree with a
shape-compatible router state (the `"slot"` entry present), the walk does
not raise the undefined-index failure. -/
theorem walk_total_on_compatible_state_witness :
    walkTreeWithFlightRouterState ctxSkip
        (fun _ => (.ok 0 : Except String Nat)) treeCrash []
        (some (.mk (.str "root")
          [("slot", .mk (.str "a") [] none)] none))
        false "head" ∅ ∅ ∅ false ≠
      .error WalkError.undefinedIndex :=
  walk_total_on_compatible_state.2 Nat String String ctxSkip (fun _ => .ok 0)
    treeCrash []
    (some (.mk (.str "root") [("slot", .mk (.str "a") [] none)] none))
    false "head" ∅ ∅ ∅ false
    (by simp [routerStateCompatible, routerStateCompatibleChildren, treeCrash,
      lookupKey, FlightRouterState.parallelRoutes])

/-- Extending the params bag via the object spread never removes a key. -/
theorem containsKey_setParam (bag : ParamsBag) (p : String) (v : ParamValue)
    (k : String) (h : containsKey bag k = true) :
    containsKey (setParam bag p v) k = true := by
  simp only [containsKey, List.any_eq_true] at h ⊢
  obtain ⟨kv, hkv, hk⟩ := h
  unfold setParam
  by_cases hb : bag.any (fun kv => kv.1 == p) = true
  · rw [if_pos hb]
    refine ⟨(fun kv => if kv.1 == p then (p, v) else kv) kv,
      List.mem_map_of_mem _ hkv, ?_⟩
    by_cases hp : (kv.1 == p) = true
    · simp only [hp, if_pos]
      have h1 : kv.1 = p := by simpa using hp
      have h2 : kv.1 = k := by simpa using hk
      exact beq_iff_eq.mpr (h1 ▸ h2)
    · simp only [if_neg hp]
      exact hk
  · rw [if_neg hb]
    exact ⟨kv, List.mem_append_left _ hkv, hk⟩

/-- The per-level params step never removes a key. -/
theorem currentParams_containsKey (ctx : Ctx) (seg : Segment)
    (parent : ParamsBag) (k : String) (h : containsKey parent k = true) :
    containsKey (currentParams ctx seg parent) k = true := by
  unfold currentParams
  cases ctx.getDynamicParamFromSegment seg with
  | none => exact h
  | some sp =>
    obtain ⟨param, value, treeSegment⟩ := sp
    cases value with
    | none => exact h
    | some v => exact containsKey_setParam parent param v k h

/-- Every path produced by the suppression loop is one of the incoming
sub-paths with `(actualSegment, parallelRouteKey)` prepended. -/
theorem processSubPaths_mem {σ η ε : Type} (frs : Option FlightRouterState)
    (key : String) (aseg : Segment) (subPaths : List (FlightDataPath σ η)) :
    ∀ (l : List (FlightDataPath σ η)),
      processSubPaths (ε := ε) frs key aseg subPaths = .ok l →
      ∀ p ∈ l, ∃ sp ∈ subPaths, p = FlightDataPath.prepend aseg key sp := by
  induction subPaths with
  | nil =>
    intro l h p hp
    rw [processSubPaths] at h
    simp only [Except.ok.injEq] at h
    subst h
    simp at hp
  | cons sp rest ih =>
    intro l h p hp
    rw [processSubPaths] at h
    cases hkeep : subPathKeep (ε := ε) frs key sp with
    | error err => rw [hkeep] at h; simp at h
    | ok keep =>
      rw [hkeep] at h
      cases hr : processSubPaths (ε := ε) frs key aseg rest with
      | error err => rw [hr] at h; simp at h
      | ok restPaths =>
        rw [hr] at h
        simp only [Except.ok.injEq] at h
        subst h
        cases keep with
        | false =>
          rw [if_neg (by simp)] at hp
          obtain ⟨sp', hsp', he⟩ := ih restPaths hr p hp
          exact ⟨sp', List.mem_cons_of_mem _ hsp', he⟩
        | true =>
          rw [if_pos rfl] at hp
          rcases List.mem_cons.mp hp with he | hm
          · exact ⟨sp, List.mem_cons_self sp rest, he⟩
          · obtain ⟨sp', hsp', he⟩ := ih restPaths hr p hm
            exact ⟨sp', List.mem_cons_of_mem _ hsp', he⟩

/-- A renderer that reports the params bag it was handed as its seed
data, so that the bag observed by each render call appears in the walk's
output. -/
def spyParamsRenderer : RenderArgs → Except Unit ParamsBag :=
  fun a => .ok a.parentParams

mutual

/-- Every params bag a render call observes contains every key of the bag
the walk was entered with. -/
theorem walk_params_keys_aux {η : Type} (ctx : Ctx) (t : LoaderTree)
    (params : ParamsBag) (frs : Option FlightRouterState) (pr : Bool)
    (head : η) (css js fonts : Finset String) (rl : Bool)
    (paths : List (FlightDataPath ParamsBag η))
    (hw : walkTreeWithFlightRouterState ctx spyParamsRenderer t params frs pr
      head css js fonts rl = .ok paths)
    (p : FlightDataPath ParamsBag η) (hp : p ∈ paths) (bag : ParamsBag)
    (hsd : p.dataSegment.seedData = some bag) (k : String)
    (hk : containsKey params k = true) : containsKey bag k = true := by
  match t with
  | .node seg children mods =>
    simp only [walkTreeWithFlightRouterState] at hw
    by_cases hcond : (!pr && renderComponentsOnThisLevel ctx
        (actualSegment ctx seg) (children.map Prod.fst) frs) = true
    · rw [if_pos hcond] at hw
      by_cases hs :
          shouldSkipComponentTree ctx (.node seg children mods) = true
      · rw [if_pos hs] at hw
        simp only [Except.ok.injEq] at hw
        subst hw
        simp only [List.mem_singleton] at hp
        subst hp
        simp at hsd
      · rw [if_neg hs] at hw
        simp only [spyParamsRenderer, Except.ok.injEq] at hw
        subst hw
        simp only [List.mem_singleton] at hp
        subst hp
        simp only [Option.some.injEq] at hsd
        exact hsd ▸ currentParams_containsKey ctx seg params k hk
    · rw [if_neg hcond] at hw
      exact walkChildren_params_keys_aux ctx (actualSegment ctx seg)
        (currentParams ctx seg params) frs _ head _ _ _ _ children paths hw p
        hp bag hsd k (currentParams_containsKey ctx seg params k hk)
termination_by sizeOf t
decreasing_by all_goals (simp_wf; omega)

/-- Children-loop form of `walk_params_keys_aux`. -/
theorem walkChildren_params_keys_aux {η : Type} (ctx : Ctx) (aseg : Segment)
    (params : ParamsBag) (frs : Option FlightRouterState) (cpr : Bool)
    (head : η) (cssW jsW fontsW : Finset String) (rlh : Bool)
    (l : List (String × LoaderTree))
    (paths : List (FlightDataPath ParamsBag η))
    (hw : walkChildren ctx spyParamsRenderer aseg params frs cpr head cssW
      jsW fontsW rlh l = .ok paths)
    (p : FlightDataPath ParamsBag η) (hp : p ∈ paths) (bag : ParamsBag)
    (hsd : p.dataSegment.seedData = some bag) (k : String)
    (hk : containsKey params k = true) : containsKey bag k = true := by
  match l with
  | [] =>
    rw [walkChildren] at hw
    simp only [Except.ok.injEq] at hw
    subst hw
    simp at hp
  | (kk, c) :: rest =>
    rw [walkChildren] at hw
    cases hws : walkTreeWithFlightRouterState ctx spyParamsRenderer c params
        (frs.bind fun s => lookupKey kk s.parallelRoutes) cpr head cssW jsW
        fontsW rlh with
    | error err => rw [hws] at hw; simp at hw
    | ok subPaths =>
      rw [hws] at hw
      cases hps : processSubPaths (ε := Unit) frs kk aseg subPaths with
      | error err => simp [hps] at hw
      | ok kept =>
        simp only [hps] at hw
        cases hr : walkChildren ctx spyParamsRenderer aseg params frs cpr
            head cssW jsW fontsW rlh rest with
        | error err => rw [hr] at hw; simp at hw
        | ok restPaths =>
          rw [hr] at hw
          simp only [Except.ok.injEq] at hw
          subst hw
          rcases List.mem_append.mp hp with hpk | hpr
          · obtain ⟨sp, hsp, he⟩ := processSubPaths_mem frs kk aseg subPaths
              kept hps p hpk
            subst he
            exact walk_params_keys_aux ctx c params _ cpr head cssW jsW
              fontsW rlh subPaths hws sp hsp bag hsd k hk
          · exact walkChildren_params_keys_aux ctx aseg params frs cpr head
              cssW jsW fontsW rlh rest restPaths hr p hpr bag hsd k hk
termination_by sizeOf l
decreasing_by
  all_goals simp_wf
  all_goals omega

end

/-- Evaluation of one children-loop step whose recursive walk fails. -/
theorem walkChildren_cons_err {σ η ε : Type} (ctx : Ctx)
    (render : RenderArgs → Except ε σ) (aseg : Segment) (params : ParamsBag)
    (frs : Option FlightRouterState) (cpr : Bool) (head : η)
    (cssW jsW fontsW : Finset String) (rlh : Bool) (kk : String)
    (c : LoaderTree) (rest : List (String × LoaderTree)) (err : WalkError ε)
    (hw : walkTreeWithFlightRouterState ctx render c params
      (frs.bind fun s => lookupKey kk s.parallelRoutes) cpr head cssW jsW
      fontsW rlh = .error err) :
    walkChildren ctx render aseg params frs cpr head cssW jsW fontsW rlh
      ((kk, c) :: rest) = .error err := by
  rw [walkChildren, hw]

/-- Evaluation of one children-loop step whose recursive walk succeeds but
whose suppression loop fails. -/
theorem walkChildren_cons_ok_err {σ η ε : Type} (ctx : Ctx)
    (render : RenderArgs → Except ε σ) (aseg : Segment) (params : ParamsBag)
    (frs : Option FlightRouterState) (cpr : Bool) (head : η)
    (cssW jsW fontsW : Finset String) (rlh : Bool) (kk : String)
    (c : LoaderTree) (rest : List (String × LoaderTree))
    (subPaths : List (FlightDataPath σ η)) (err : WalkError ε)
    (hw : walkTreeWithFlightRouterState ctx render c params
      (frs.bind fun s => lookupKey kk s.parallelRoutes) cpr head cssW jsW
      fontsW rlh = .ok subPaths)
    (hps : processSubPaths (ε := ε) frs kk aseg subPaths = .error err) :
    walkChildren ctx render aseg params frs cpr head cssW jsW fontsW rlh
      ((kk, c) :: rest) = .error err := by
  rw [walkChildren, hw]
  simp only [hps]

/-- Evaluation of one children-loop step whose recursive walk and
suppression loop both succeed. -/
theorem walkChildren_cons_ok_ok {σ η ε : Type} (ctx : Ctx)
    (render : RenderArgs → Except ε σ) (aseg : Segment) (params : ParamsBag)
    (frs : Option FlightRouterState) (cpr : Bool) (head : η)
    (cssW jsW fontsW : Finset String) (rlh : Bool) (kk : String)
    (c : LoaderTree) (rest : List (String × LoaderTree))
    (subPaths kept : List (FlightDataPath σ η))
    (hw : walkTreeWithFlightRouterState ctx render c params
      (frs.bind fun s => lookupKey kk s.parallelRoutes) cpr head cssW jsW
      fontsW rlh = .ok subPaths)
    (hps : processSubPaths (ε := ε) frs kk aseg subPaths = .ok kept) :
    walkChildren ctx render aseg params frs cpr head cssW jsW fontsW rlh
        ((kk, c) :: rest) =
      match walkChildren ctx render aseg params frs cpr head cssW jsW fontsW
          rlh rest with
      | .error err => .error err
      | .ok restPaths => .ok (kept ++ restPaths) := by
  rw [walkChildren, hw]
  simp only [hps]

mutual

/-- With a renderer that throws `e` on every invocation, each call of the
walk either fails with exactly that renderer error, or its result does not
depend on the renderer at all (the renderer is never consulted). -/
theorem walk_error_aux {σ η ε : Type} (ctx : Ctx) (e : ε) (t : LoaderTree)
    (params : ParamsBag) (frs : Option FlightRouterState) (pr : Bool)
    (head : η) (css js fonts : Finset String) (rl : Bool) :
    walkTreeWithFlightRouterState ctx (fun _ => (.error e : Except ε σ)) t
        params frs pr head css js fonts rl = .error (.renderer e) ∨
      ∀ render : RenderArgs → Except ε σ,
        walkTreeWithFlightRouterState ctx render t params frs pr head css js
            fonts rl =
          walkTreeWithFlightRouterState ctx (fun _ => .error e) t params frs
            pr head css js fonts rl := by
  match t with
  | .node seg children mods =>
    by_cases hcond : (!pr && renderComponentsOnThisLevel ctx
        (actualSegment ctx seg) (children.map Prod.fst) frs) = true
    · by_cases hs :
          shouldSkipComponentTree ctx (.node seg children mods) = true
      · right
        intro render
        simp only [walkTreeWithFlightRouterState]
        rw [if_pos hcond, if_pos hcond, if_pos hs, if_pos hs]
      · left
        simp only [walkTreeWithFlightRouterState]
        rw [if_pos hcond, if_neg hs]
    · rcases walkChildren_error_aux (σ := σ) ctx e (actualSegment ctx seg)
          (currentParams ctx seg params) frs
          (pr || renderComponentsOnThisLevel ctx (actualSegment ctx seg)
            (children.map Prod.fst) frs) head
          (assetsWithCurrentLayout ctx mods css js fonts).1
          (assetsWithCurrentLayout ctx mods css js fonts).2.1
          (assetsWithCurrentLayout ctx mods css js fonts).2.2
          (rootLayoutIncludedAtThisLevelOrAbove mods rl) children with
        hl | hr
      · left
        simp only [walkTreeWithFlightRouterState]
        rw [if_neg hcond]
        exact hl
      · right
        intro render
        simp only [walkTreeWithFlightRouterState]
        rw [if_neg hcond, if_neg hcond]
        exact hr render
termination_by sizeOf t
decreasing_by
  all_goals simp_wf
  all_goals omega

/-- Children-loop form of `walk_error_aux`. -/
theorem walkChildren_error_aux {σ η ε : Type} (ctx : Ctx) (e : ε)
    (aseg : Segment) (params : ParamsBag) (frs : Option FlightRouterState)
    (cpr : Bool) (head : η) (cssW jsW fontsW : Finset String) (rlh : Bool)
    (l : List (String × LoaderTree)) :
    walkChildren ctx (fun _ => (.error e : Except ε σ)) aseg params frs cpr
        head cssW jsW fontsW rlh l = .error (.renderer e) ∨
      ∀ render : RenderArgs → Except ε σ,
        walkChildren ctx render aseg params frs cpr head cssW jsW fontsW rlh
            l =
          walkChildren ctx (fun _ => .error e) aseg params frs cpr head cssW
            jsW fontsW rlh l := by
  match l with
  | [] =>
    right
    intro render
    rw [walkChildren, walkChildren]
  | (kk, c) :: rest =>
    rcases walk_error_aux (σ := σ) (η := η) ctx e c params
        (frs.bind fun s => lookupKey kk s.parallelRoutes) cpr head cssW jsW
        fontsW rlh with hcl | hcr
    · left
      rw [walkChildren, hcl]
    · cases hw : walkTreeWithFlightRouterState ctx
          (fun _ => (.error e : Except ε σ)) c params
          (frs.bind fun s => lookupKey kk s.parallelRoutes) cpr head cssW jsW
          fontsW rlh with
      | error err =>
        right
        intro render
        rw [walkChildren_cons_err ctx render aseg params frs cpr head cssW
            jsW fontsW rlh kk c rest err ((hcr render).trans hw),
          walkChildren_cons_err ctx (fun _ => .error e) aseg params frs cpr
            head cssW jsW fontsW rlh kk c rest err hw]
      | ok subPaths =>
        cases hps : processSubPaths (ε := ε) frs kk aseg subPaths with
        | error err =>
          right
          intro render
          rw [walkChildren_cons_ok_err ctx render aseg params frs cpr head
              cssW jsW fontsW rlh kk c rest subPaths err
              ((hcr render).trans hw) hps,
            walkChildren_cons_ok_err ctx (fun _ => .error e) aseg params frs
              cpr head cssW jsW fontsW rlh kk c rest subPaths err hw hps]
        | ok kept =>
          rcases walkChildren_error_aux (σ := σ) ctx e aseg params frs cpr
              head cssW jsW fontsW rlh rest with hrl | hrr
          · left
            rw [walkChildren_cons_ok_ok ctx (fun _ => .error e) aseg params
                frs cpr head cssW jsW fontsW rlh kk c rest subPaths kept hw
                hps, hrl]
          · right
            intro render
            rw [walkChildren_cons_ok_ok ctx render aseg params frs cpr head
                cssW jsW fontsW rlh kk c rest subPaths kept
                ((hcr render).trans hw) hps,
              walkChildren_cons_ok_ok ctx (fun _ => .error e) aseg params frs
                cpr head cssW jsW fontsW rlh kk c rest subPaths kept hw hps,
              hrr render]
termination_by sizeOf l
decreasing_by
  all_goals simp_wf
  all_goals omega

end

/-- **C9**: the walk catches no errors and performs no retries — with a
renderer that throws `e` on every invocation, every call of the walk
either rejects with exactly that error (as a renderer error, verbatim,
with no path list returned) or returns a result that is identical for
every renderer (the renderer was never invoked). -/
theorem renderer_error_propagation {σ η ε : Type} (ctx : Ctx) (e : ε)
    (t : LoaderTree) (params : ParamsBag) (frs : Option FlightRouterState)
    (pr : Bool) (head : η) (css js fonts : Finset String) (rl : Bool) :
    walkTreeWithFlightRouterState ctx (fun _ => (.error e : Except ε σ)) t
        params frs pr head css js fonts rl = .error (.renderer e) ∨
      ∀ render : RenderArgs → Except ε σ,
        walkTreeWithFlightRouterState ctx render t params frs pr head css js
            fonts rl =
          walkTreeWithFlightRouterState ctx (fun _ => .error e) t params frs
            pr head css js fonts rl :=
  walk_error_aux ctx e t params frs pr head css js fonts rl

/-- The concrete context of the three-level dynamic-params example: every
dynamic segment resolves to its own single-valued binding. -/
def ctx8 : Ctx :=
  { ctxW with
    getDynamicParamFromSegment := fun s =>
      match s with
      | .dyn n v _ => some ⟨n, some (.str v), s⟩
      | .str _ => none }

/-- A loader tree of three nested dynamic segments `[x]/[y]/[z]`. -/
def tree8 : LoaderTree :=
  .node (.dyn "x" "1" "d")
    [("children", .node (.dyn "y" "2" "d")
      [("children", .node (.dyn "z" "3" "d") [] ⟨none, false⟩)]
      ⟨none, false⟩)]
    ⟨none, false⟩

/-- A router state matching the first two levels of `tree8`, so rendering
starts at the leaf. -/
def frs8 : FlightRouterState :=
  .mk (.dyn "x" "1" "d")
    [("children", .mk (.dyn "y" "2" "d")
      [("children", .mk (.str "stale") [] none)] none)]
    none

/-- **C8**: if the dynamic-param resolver yields a non-null binding,
`currentParams` is `parentParams` extended with it, else unchanged; the
bag grows monotonically (no key is ever removed, so every render call
observes all bindings of its ancestors and of the walk's entry bag); and
on the concrete three-level dynamic tree the render call at the leaf
observes all three bindings merged. -/
theorem params_accumulation :
    (∀ (ctx : Ctx) (seg : Segment) (parent : ParamsBag) (k : String),
      containsKey parent k = true →
      containsKey (currentParams ctx seg parent) k = true) ∧
    (∀ (η : Type) (ctx : Ctx) (t : LoaderTree) (params : ParamsBag)
        (frs : Option FlightRouterState) (pr : Bool) (head : η)
        (css js fonts : Finset String) (rl : Bool)
        (paths : List (FlightDataPath ParamsBag η)),
      walkTreeWithFlightRouterState ctx spyParamsRenderer t params frs pr
        head css js fonts rl = .ok paths →
      ∀ p ∈ paths, ∀ bag, p.dataSegment.seedData = some bag →
      ∀ k, containsKey params k = true → containsKey bag k = true) ∧
    (walkTreeWithFlightRouterState ctx8 spyParamsRenderer tree8 []
        (some frs8) false () ∅ ∅ ∅ false =
      .ok [⟨[(.dyn "x" "1" "d", "children"), (.dyn "y" "2" "d", "children")],
        ⟨.dyn "z" "3" "d", .mk (.dyn "z" "3" "d") [] none,
          some [("x", .str "1"), ("y", .str "2"), ("z", .str "3")],
          some (), false⟩⟩]) := by
  refine ⟨currentParams_containsKey, ?_, ?_⟩
  · intro η ctx t params frs pr head css js fonts rl paths hw p hp bag hsd k
      hk
    exact walk_params_keys_aux ctx t params frs pr head css js fonts rl paths
      hw p hp bag hsd k hk
  · simp [walkTreeWithFlightRouterState, walkChildren, processSubPaths,
      subPathKeep, renderComponentsOnThisLevel, shouldSkipComponentTree,
      actualSegment, currentParams, setParam, overriddenSegment,
      assetsWithCurrentLayout, spyParamsRenderer, ctx8, ctxW, tree8, frs8,
      lookupKey, FlightDataPath.firstSegment, FlightDataPath.prepend,
      DEFAULT_SEGMENT_KEY, FlightRouterState.segment,
      FlightRouterState.refetch, FlightRouterState.parallelRoutes,
      LoaderTree.segment, LoaderTree.modules]

/-- Witness for C8: the per-level step keeps the `"a"` binding, and on a
one-node tree the bag observed by the render call contains the entry
bag's key. -/
theorem params_accumulation_witness :
    containsKey (currentParams ctx8 (.dyn "x" "1" "d") [("a", .str "v")])
        "a" = true ∧
      containsKey [("a", ParamValue.str "v")] "a" = true :=
  ⟨params_accumulation.1 ctx8 (.dyn "x" "1" "d") [("a", .str "v")] "a"
      (by rfl),
    params_accumulation.2.1 Unit ctx8 (leafTree "leaf") [("a", .str "v")]
      none false () ∅ ∅ ∅ false
      [⟨[], ⟨.str "leaf", .mk (.str "leaf") [] none, some [("a", .str "v")],
        some (), false⟩⟩]
      (by simp [walkTreeWithFlightRouterState, renderComponentsOnThisLevel,
        shouldSkipComponentTree, actualSegment, currentParams,
        overriddenSegment, spyParamsRenderer, ctx8, ctxW, leafTree,
        LoaderTree.segment, LoaderTree.modules])
      ⟨[], ⟨.str "leaf", .mk (.str "leaf") [] none, some [("a", .str "v")],
        some (), false⟩⟩
      (List.mem_singleton.mpr rfl) [("a", .str "v")] rfl "a" rfl⟩
